import Mathlib

set_option maxRecDepth 100000

/-!
Verification of the gSheetAgent request/response orchestration pipeline.

The development shallowly embeds the Express route handlers
(`router.post('/prompt')`, `router.get('/setup')` in `src/web/routes.js`),
the bearer-token extraction helper `getAuthorizationToken`, and
`ScriptManager.updateScriptContent` / `ScriptManager.addFilesFromDirectory`
(`src/google/script_manager.js`).  External effects (the OpenAI chat
completion, `JSON.parse`, the filesystem, and the remote Apps Script
`projects.updateContent` call) are passed in as explicit oracle values, so
every handler is a pure, executable Lean function of the request plus the
environment's behaviour.
-/

namespace GSheetAgent

/-- JS string `includes`, modelled on the character list: `containsAt l pat`
is `true` iff `pat` occurs as a contiguous sublist of `l`. -/
def containsAt : List Char → List Char → Bool
  | [], pat => pat.isEmpty
  | c :: rest, pat => pat.isPrefixOf (c :: rest) || containsAt rest pat

/-- JS `String.prototype.includes`. -/
def jsIncludes (s pat : String) : Bool := containsAt s.data pat.data

/-- JS `String.prototype.startsWith`. -/
def jsStartsWith (s pre : String) : Bool := pre.data.isPrefixOf s.data

/-- JS `String.prototype.endsWith`. -/
def jsEndsWith (s suf : String) : Bool := suf.data.isSuffixOf s.data

/-- JS `String.prototype.split(sep)` restricted to a single-character
separator (the handlers only ever split on a single space). -/
def splitOnChar (sep : Char) : List Char → List (List Char)
  | [] => [[]]
  | c :: rest =>
    let r := splitOnChar sep rest
    if c = sep then [] :: r
    else
      match r with
      | [] => [[c]]
      | h :: t => (c :: h) :: t

/-- JS `s.split(sep)[1]`: `none` models the JS `undefined` when the index
is out of range. -/
def jsSplitGet1 (s : String) (sep : Char) : Option String :=
  ((splitOnChar sep s.data).get? 1).map (fun l => ⟨l⟩)

/-- JS `String.prototype.replace` with a plain (non-regex) pattern:
replaces the first occurrence only, on character lists. -/
def replaceFirstList : List Char → List Char → List Char → List Char
  | [], pat, rep => if pat.isEmpty then rep else []
  | c :: rest, pat, rep =>
    if pat.isPrefixOf (c :: rest) then rep ++ (c :: rest).drop pat.length
    else c :: replaceFirstList rest pat rep

/-- JS `String.prototype.replace` with a string pattern (first occurrence). -/
def jsReplaceFirst (s pat rep : String) : String :=
  ⟨replaceFirstList s.data pat.data rep.data⟩

/-- JS truthiness test for a possibly-absent string value: `undefined`,
`null` and the empty string are falsy. -/
def strFalsy : Option String → Bool
  | none => true
  | some s => s = ""

/-- JS `a || b` for a possibly-absent string `a` with default `b`
(`responseJson.explanation || 'No explanation provided'`). -/
def jsOrElse (o : Option String) (d : String) : String :=
  match o with
  | none => d
  | some s => if s = "" then d else s

/-- A `/prompt` HTTP request: the `Authorization` header and the three JSON
body fields.  `none` models an absent header/field. -/
structure PromptRequest where
  authorization : Option String
  instruction : Option String
  scriptId : Option String
  timezone : Option String
deriving DecidableEq

/-- `getAuthorizationToken` from `src/web/routes.js`: returns `null` unless
the header starts with `'Bearer '`, else `authHeader.split(' ')[1]`. -/
def getAuthorizationToken (req : PromptRequest) : Option String :=
  match req.authorization with
  | none => none
  | some h =>
    if jsStartsWith h "Bearer " then jsSplitGet1 h ' '
    else none

/-- One entry of the file manifest sent to the Apps Script
`projects.updateContent` operation. -/
structure ManifestFile where
  name : String
  type : String
  source : String
deriving DecidableEq

/- A snapshot of the `gas` template directory as seen by `fs.readdir`
(`withFileTypes: true`): files carry their content, directories their
entries in readdir order.  `readdir` never yields `.` or `..`.
`FsForest` is a directory listing (a list of entries, mutually inductive
with `FsEntry` so that the directory walk is structurally recursive). -/
mutual
/-- One `fs.Dirent`: a file with its content, or a directory. -/
inductive FsEntry where
  | file (name content : String) : FsEntry
  | dir (name : String) (children : FsForest) : FsEntry

/-- A directory listing in readdir order. -/
inductive FsForest where
  | nil : FsForest
  | cons (e : FsEntry) (rest : FsForest) : FsForest
end

/-- Byte position of the last `'.'` in a basename, if any. -/
def lastDotPos (l : List Char) : Option Nat :=
  ((l.enum.filter (fun p => p.2 = '.')).map (fun p => p.1)).getLast?

/-- Node `path.basename(p, path.extname(p))` for a plain basename: strips
the suffix from the last `'.'`, except when that dot is the leading
character (`.bashrc` keeps its name). -/
def stripExt (b : String) : String :=
  match lastDotPos b.data with
  | none => b
  | some 0 => b
  | some i => ⟨b.data.take i⟩

/-- File type inference of `ScriptManager.addFilesFromDirectory`
(`script_manager.js` lines 115-123): by extension, with an `UNKNOWN`
fallback. -/
def fileTypeOf (entryName : String) : String :=
  if jsEndsWith entryName ".html" then "HTML"
  else if jsEndsWith entryName ".js" then "SERVER_JS"
  else if jsEndsWith entryName ".json" then "JSON"
  else "UNKNOWN"

/-- The backslash-to-slash normalisation `.replace(/\\/g, '/')` applied to
manifest entry names. -/
def slashNormalize (s : String) : String :=
  ⟨s.data.map (fun c => if c = '\\' then '/' else c)⟩

/-- `path.join(path.dirname(rel), strippedBase)` where `rel` is the path of
the entry relative to the gas directory: `pref` is the relative directory
(`""` at the root, where `path.dirname` yields `.` and `path.join`
drops it). -/
def relName (pref base : String) : String :=
  slashNormalize (if pref = "" then base else pref ++ "/" ++ base)

/- `ScriptManager.addFilesFromDirectory`: the manifest entries contributed
by one directory level, in readdir order; a subdirectory's entries are
appended in place before the remaining siblings (`walkEntry` handles one
readdir entry, `addFilesFromDirectory` a whole listing). -/
mutual
/-- Entries contributed by a single readdir entry. -/
def walkEntry (pref : String) : FsEntry → List ManifestFile
  | FsEntry.file n c =>
    [{ name := relName pref (stripExt n), type := fileTypeOf n, source := c }]
  | FsEntry.dir n children =>
    addFilesFromDirectory (if pref = "" then n else pref ++ "/" ++ n) children

/-- Entries contributed by a whole directory listing. -/
def addFilesFromDirectory (pref : String) : FsForest → List ManifestFile
  | FsForest.nil => []
  | FsForest.cons e rest => walkEntry pref e ++ addFilesFromDirectory pref rest
end

/-- The object literal serialised into the `appsscript` manifest entry
(`script_manager.js` lines 63-68). -/
structure AppsscriptManifest where
  timeZone : String
  exceptionLogging : String
  runtimeVersion : String
  oauthScopes : List String
deriving DecidableEq

/-- The manifest object built by `updateScriptContent`: the supplied
timezone plus fixed logging/runtime settings and the configured scopes. -/
def mkAppsscriptManifest (tz : String) (scopes : List String) :
    AppsscriptManifest :=
  { timeZone := tz, exceptionLogging := "CLOUD", runtimeVersion := "V8",
    oauthScopes := scopes }

/-- One hex digit. -/
def hexDigit (n : Nat) : Char :=
  if n < 10 then Char.ofNat (48 + n) else Char.ofNat (87 + (n - 10))

/-- Four-digit lowercase hex, as in `JSON.stringify`'s `\u00XX` escapes. -/
def hex4 (n : Nat) : List Char :=
  [hexDigit (n / 4096 % 16), hexDigit (n / 256 % 16),
   hexDigit (n / 16 % 16), hexDigit (n % 16)]

/-- `JSON.stringify` escaping of a single character inside a string. -/
def escapeJsonChar (c : Char) : List Char :=
  if c = '"' then ['\\', '"']
  else if c = '\\' then ['\\', '\\']
  else if c = '\x08' then ['\\', 'b']
  else if c = '\x09' then ['\\', 't']
  else if c = '\x0a' then ['\\', 'n']
  else if c = '\x0c' then ['\\', 'f']
  else if c = '\x0d' then ['\\', 'r']
  else if c.toNat < 32 then '\\' :: 'u' :: hex4 c.toNat
  else [c]

/-- `JSON.stringify` of a string value, quotes included. -/
def jsonQuote (s : String) : String :=
  "\"" ++ (⟨s.data.flatMap escapeJsonChar⟩ : String) ++ "\""

/-- `JSON.stringify` of the manifest object, with JS insertion key order. -/
def stringifyAppsscript (m : AppsscriptManifest) : String :=
  "\x7b\"timeZone\":" ++ jsonQuote m.timeZone
    ++ ",\"exceptionLogging\":" ++ jsonQuote m.exceptionLogging
    ++ ",\"runtimeVersion\":" ++ jsonQuote m.runtimeVersion
    ++ ",\"oauthScopes\":[" ++
      String.intercalate "," (m.oauthScopes.map jsonQuote) ++ "]\x7d"

/-- The initial `files` array plus the recursive directory walk
(`script_manager.js` lines 54-74): generated code first, then the
`appsscript` manifest, then every file under the gas directory. -/
def buildManifestFiles (code : String) (scopes : List String) (tz : String)
    (tree : FsForest) : List ManifestFile :=
  { name := "generated", type := "SERVER_JS", source := code }
    :: { name := "appsscript", type := "JSON",
         source := stringifyAppsscript (mkAppsscriptManifest tz scopes) }
    :: addFilesFromDirectory "" tree

/-- `if (!generatedCode) generatedCode = config.google.getDefaultDynamicScript()`:
`none` models the JS `null`/`undefined` argument; the empty string is falsy
too. -/
def resolveGeneratedCode (g : Option String) (dflt : String) : String :=
  match g with
  | none => dflt
  | some s => if s = "" then dflt else s

/-- Behaviour of the remote `projects.updateContent` call: it either
resolves with `response.data` (whose optional `error` field the `/prompt`
handler inspects) or rejects with an error message. -/
inductive RemoteOutcome where
  | ok (dataError : Option String) : RemoteOutcome
  | raise (message : String) : RemoteOutcome
deriving DecidableEq

/-- The value `updateScriptContent` resolves with, as observed by its
callers: `data` on success, `\x7berror: message\x7d` after its `catch`. -/
structure UpdateResult where
  error : Option String
deriving DecidableEq

/-- Result of one `updateScriptContent` call: the manifest actually handed
to the remote operation (`none` when the directory walk threw first) and
the resolved value. -/
structure UpdateCall where
  sent : Option (List ManifestFile)
  result : UpdateResult
deriving DecidableEq

/-- `ScriptManager.updateScriptContent` (`script_manager.js` lines 47-90).
`dflt` is `config.google.getDefaultDynamicScript()`, `scopes` is
`config.google.scopes`; `fsErr` models a rejection of the directory walk
and `remote` the behaviour of the remote content API. -/
def updateScriptContent (g : Option String) (dflt : String)
    (scopes : List String) (tz : String) (tree : FsForest)
    (fsErr : Option String) (remote : RemoteOutcome) : UpdateCall :=
  let code := resolveGeneratedCode g dflt
  match fsErr with
  | some m => { sent := none, result := { error := some m } }
  | none =>
    let files := buildManifestFiles code scopes tz tree
    match remote with
    | RemoteOutcome.ok de => { sent := some files, result := { error := de } }
    | RemoteOutcome.raise m =>
      { sent := some files, result := { error := some m } }

/-- The object the LLM client's text is `JSON.parse`d into, as read by the
`/prompt` handler: the `explanation` and `code` properties, each possibly
absent. -/
structure ModelReply where
  explanation : Option String
  code : Option String
deriving DecidableEq

/-- JSON body of a `/prompt` response. -/
inductive PromptBody where
  | errorBody (error : String) : PromptBody
  | success (received_instruction : String) : PromptBody
deriving DecidableEq

/-- Everything observable about one `/prompt` request: the HTTP status and
body, whether the LLM client was invoked, whether `updateScriptContent`
was invoked, and the manifest handed to the remote content API (if any). -/
structure PromptOutcome where
  status : Nat
  body : PromptBody
  llmCalled : Bool
  uploadCalled : Bool
  sent : Option (List ManifestFile)
deriving DecidableEq

/-- The fixed reinstall message substituted for scope errors
(`routes.js` line 88). -/
def reinstallMessage : String :=
  "This document hasn\x27t been properly authorized to do an end-to-end automation. Please reinstall the add-on."

/-- `router.post('/prompt')` (`src/web/routes.js` lines 42-102).

Oracles: `llmResult` is what `llmClient.getAppsScriptCode` resolves with
(`none` models its `null` on an OpenAI error); `jsonParse` is `JSON.parse`
restricted to the two properties the handler reads (`none` models a parse
exception); `dflt`, `scopes`, `tree`, `fsErr`, `remote` parameterise
`updateScriptContent` as above. -/
def promptPost (req : PromptRequest) (llmResult : Option String)
    (jsonParse : String → Option ModelReply) (dflt : String)
    (scopes : List String) (tree : FsForest) (fsErr : Option String)
    (remote : RemoteOutcome) : PromptOutcome :=
  if strFalsy req.instruction || strFalsy req.scriptId ||
      strFalsy req.timezone then
    { status := 400,
      body := PromptBody.errorBody "Instruction, Script ID or Timezone not provided",
      llmCalled := false, uploadCalled := false, sent := none }
  else
    let token := getAuthorizationToken req
    if strFalsy token then
      { status := 401, body := PromptBody.errorBody "Unauthorized",
        llmCalled := false, uploadCalled := false, sent := none }
    else
      match llmResult with
      | none =>
        { status := 500,
          body := PromptBody.errorBody "Failed to generate response from LLM",
          llmCalled := true, uploadCalled := false, sent := none }
      | some text =>
        match jsonParse text with
        | none =>
          { status := 500,
            body := PromptBody.errorBody "Failed to decode response from LLM",
            llmCalled := true, uploadCalled := false, sent := none }
        | some reply =>
          let receivedInstruction :=
            jsOrElse reply.explanation "No explanation provided"
          let receivedCode := jsOrElse reply.code ""
          let call := updateScriptContent (some receivedCode) dflt scopes
            (req.timezone.getD "") tree fsErr remote
          match call.result.error with
          | some m =>
            let userMessage :=
              if jsIncludes m "ACCESS_TOKEN_SCOPE_INSUFFICIENT" then
                reinstallMessage
              else m
            { status := 500, body := PromptBody.errorBody userMessage,
              llmCalled := true, uploadCalled := true, sent := call.sent }
          | none =>
            { status := 200, body := PromptBody.success receivedInstruction,
              llmCalled := true, uploadCalled := true, sent := call.sent }

/-- A `/setup` HTTP request: the two query parameters. -/
structure SetupRequest where
  authToken : Option String
  scriptId : Option String
deriving DecidableEq

/-- Everything observable about one `/setup` response: status, the
`Content-Type` header if explicitly set, the script body sent by
`res.send`, the JSON error body if any, and whether `updateScriptContent`
was invoked. -/
structure SetupOutcome where
  status : Nat
  contentType : Option String
  jsBody : Option String
  errorBody : Option String
  uploadCalled : Bool
deriving DecidableEq

/-- The guidance substituted when the upstream error mentions
`SERVICE_DISABLED` (`routes.js` line 134). -/
def serviceDisabledMessage : String :=
  "The Apps Script API has not been enabled for this project. Please enable it by visiting the Google Developers Console."

/-- The search pattern of the template substitution
(`jsContent.replace("failureMessage = ''", ...)`). -/
def failurePlaceholder : String := "failureMessage = \x27\x27"

/-- `jsContent.replace("failureMessage = ''", "failureMessage = '<msg>'")`. -/
def substituteFailure (tmpl msg : String) : String :=
  jsReplaceFirst tmpl failurePlaceholder
    ("failureMessage = \x27" ++ msg ++ "\x27")

/-- The `catch` block of `/setup` (`routes.js` lines 129-139): classify the
error message and substitute into the template.  In the non-disabled branch
the template interpolates `$\x7be\x7d`, i.e. `String(e)`, which for an
`Error` is `"Error: " ++ e.message`. -/
def setupCatch (tmpl msg : String) : String :=
  if jsIncludes msg "SERVICE_DISABLED" then
    substituteFailure tmpl serviceDisabledMessage
  else
    substituteFailure tmpl ("Error: " ++ msg)

/-- `router.get('/setup')` (`src/web/routes.js` lines 107-151).

`templateRead` is what `fs.readFile` yields for the setup template
(`none` models a read failure); the remaining oracles parameterise the
`updateScriptContent` call, which `/setup` makes with no generated code
and the default timezone. -/
def setupGet (templateRead : Option String) (q : SetupRequest)
    (dflt : String) (scopes : List String) (tree : FsForest)
    (fsErr : Option String) (remote : RemoteOutcome) : SetupOutcome :=
  match templateRead with
  | none =>
    { status := 500, contentType := none, jsBody := none,
      errorBody := some "Internal server error", uploadCalled := false }
  | some tmpl =>
    if strFalsy q.authToken || strFalsy q.scriptId then
      { status := 200, contentType := some "application/javascript",
        jsBody := some (setupCatch tmpl "authToken and scriptId must be provided"),
        errorBody := none, uploadCalled := false }
    else
      let call := updateScriptContent none dflt scopes "America/New_York"
        tree fsErr remote
      match call.result.error with
      | some m =>
        { status := 200, contentType := some "application/javascript",
          jsBody := some (setupCatch tmpl m), errorBody := none,
          uploadCalled := true }
      | none =>
        { status := 200, contentType := some "application/javascript",
          jsBody := some tmpl, errorBody := none, uploadCalled := true }

/-- The contents of the `src/web/templates/setup.js` template file, one
string per source line. -/
def setupTemplate : String :=
  "document.addEventListener(\"DOMContentLoaded\", function() \n"
    ++ "\x7b\n"
    ++ "    const failureMessage = \x27\x27;\n"
    ++ "\n"
    ++ "    if (!failureMessage) \x7b\n"
    ++ "        google.script.run.refreshSidebar();\n"
    ++ "\n"
    ++ "        // // Create Success Alert\n"
    ++ "        // const successAlert = document.createElement(\x27div\x27);\n"
    ++ "        // successAlert.id = \x27successAlert\x27;\n"
    ++ "        // successAlert.className = \x27alert alert-success\x27;\n"
    ++ "        // successAlert.style.display = failureMessage ? \x27none\x27 : \x27block\x27;\n"
    ++ "        // successAlert.role = \x27alert\x27;\n"
    ++ "        // successAlert.innerHTML = `\n"
    ++ "        //     <p>The gSheetAgent dynamic script component was installed successfully.</p>\n"
    ++ "        //     <p>Please refresh your browser and check the gSheetAgent menu again for the prompt capability.</p>\n"
    ++ "        // `;\n"
    ++ "        // container.appendChild(successAlert);        \n"
    ++ "        \n"
    ++ "    \x7d else \x7b\n"
    ++ "        // Find the main content container and clear it\n"
    ++ "        const container = document.getElementById(\x27main-content\x27);\n"
    ++ "        container.innerHTML = \x27\x27;\n"
    ++ "\n"
    ++ "        // Create the header\n"
    ++ "        const header = document.createElement(\x27h2\x27);\n"
    ++ "        header.className = \x27text-left mt-4 mb-4\x27;\n"
    ++ "        header.textContent = \x27gSheetAgent\x27;\n"
    ++ "        container.appendChild(header);\n"
    ++ "\n"
    ++ "        // Create Failure Alert\n"
    ++ "        const failureAlert = document.createElement(\x27div\x27);\n"
    ++ "        failureAlert.id = \x27failureAlert\x27;\n"
    ++ "        failureAlert.className = \x27alert alert-danger\x27;\n"
    ++ "        failureAlert.role = \x27alert\x27;\n"
    ++ "        failureAlert.innerHTML = `\n"
    ++ "            <p>Failed to set up the gSheetAgent dynamic script component:</p>\n"
    ++ "            <p id=\"failureMessage\">$\x7bfailureMessage\x7d</p>\n"
    ++ "        `;\n"
    ++ "        container.appendChild(failureAlert);\n"
    ++ "    \x7d\n"
    ++ "\x7d);"

/-- Substring occurrence at the `String` level: `pat` occurs contiguously
inside `s`. -/
def strContains (s pat : String) : Prop :=
  ∃ a b : String, s = a ++ pat ++ b

/-!
Helper lemmas about the JS string primitives.
-/

/-- `containsAt` decides contiguous-substring occurrence. -/
theorem containsAt_iff (pat : List Char) (l : List Char) :
    containsAt l pat = true ↔ ∃ a b, l = a ++ (pat ++ b) := by
  induction l with
  | nil =>
    simp only [containsAt, List.isEmpty_iff]
    constructor
    · intro h
      exact ⟨[], [], by simp [h]⟩
    · rintro ⟨a, b, hab⟩
      have := hab.symm
      simp only [List.append_eq_nil] at this
      exact this.2.1
  | cons c rest ih =>
    simp only [containsAt, Bool.or_eq_true, List.isPrefixOf_iff_prefix, ih]
    constructor
    · rintro (⟨t, ht⟩ | ⟨a, b, hab⟩)
      · exact ⟨[], t, by simp [ht]⟩
      · exact ⟨c :: a, b, by simp [hab]⟩
    · rintro ⟨a, b, hab⟩
      cases a with
      | nil =>
        left
        exact ⟨b, by simpa using hab.symm⟩
      | cons a0 a2 =>
        right
        rw [List.cons_append] at hab
        injection hab with h1 h2
        exact ⟨a2, b, h2⟩

/-- `jsIncludes` agrees with `strContains`. -/
theorem jsIncludes_iff (s pat : String) :
    jsIncludes s pat = true ↔ strContains s pat := by
  unfold jsIncludes strContains
  rw [containsAt_iff]
  constructor
  · rintro ⟨a, b, h⟩
    refine ⟨⟨a⟩, ⟨b⟩, String.ext ?_⟩
    simp only [String.data_append]
    rw [h, List.append_assoc]
  · rintro ⟨a, b, h⟩
    refine ⟨a.data, b.data, ?_⟩
    rw [h]
    simp [String.data_append, List.append_assoc]

/-- Substring occurrence is transitive through a middle string. -/
theorem strContains_trans {s m p : String} (h1 : strContains s m)
    (h2 : strContains m p) : strContains s p := by
  obtain ⟨a, b, ha⟩ := h1
  obtain ⟨c, d, hc⟩ := h2
  refine ⟨a ++ c, d ++ b, ?_⟩
  rw [ha, hc]
  simp [String.append_assoc]

/-!
Claim theorems.
-/

/-- Claim C1: a `/prompt` request with a missing or empty `instruction`,
`scriptId` or `timezone` gets a 400 response, and one whose fields are all
present but from which no bearer token is extracted gets a 401 response; in
both cases the handler returns before the LLM client or the remote script
content API is invoked. -/
theorem prompt_rejects_before_network (req : PromptRequest)
    (llmResult : Option String) (jsonParse : String → Option ModelReply)
    (dflt : String) (scopes : List String) (tree : FsForest)
    (fsErr : Option String) (remote : RemoteOutcome) :
    ((strFalsy req.instruction || strFalsy req.scriptId ||
        strFalsy req.timezone) = true →
      promptPost req llmResult jsonParse dflt scopes tree fsErr remote =
        { status := 400,
          body := PromptBody.errorBody
            "Instruction, Script ID or Timezone not provided",
          llmCalled := false, uploadCalled := false, sent := none }) ∧
    ((strFalsy req.instruction || strFalsy req.scriptId ||
        strFalsy req.timezone) = false →
      strFalsy (getAuthorizationToken req) = true →
      promptPost req llmResult jsonParse dflt scopes tree fsErr remote =
        { status := 401, body := PromptBody.errorBody "Unauthorized",
          llmCalled := false, uploadCalled := false, sent := none }) := by
  constructor
  · intro h
    simp [promptPost, h]
  · intro h htok
    simp [promptPost, h, htok]

/-- Concrete instances of C1: an empty `instruction` gives 400, an absent
`Authorization` header gives 401, with no collaborator call in either
case. -/
theorem prompt_rejects_before_network_witness :
    promptPost ⟨some "Bearer t", some "", some "sid", some "tz"⟩ (some "X")
        (fun _ => none) "D" [] FsForest.nil none (RemoteOutcome.ok none) =
      { status := 400,
        body := PromptBody.errorBody
          "Instruction, Script ID or Timezone not provided",
        llmCalled := false, uploadCalled := false, sent := none } ∧
    promptPost ⟨none, some "i", some "sid", some "tz"⟩ (some "X")
        (fun _ => none) "D" [] FsForest.nil none (RemoteOutcome.ok none) =
      { status := 401, body := PromptBody.errorBody "Unauthorized",
        llmCalled := false, uploadCalled := false, sent := none } :=
  ⟨(prompt_rejects_before_network ⟨some "Bearer t", some "", some "sid",
      some "tz"⟩ (some "X") (fun _ => none) "D" [] FsForest.nil none
      (RemoteOutcome.ok none)).1 (by decide),
   (prompt_rejects_before_network ⟨none, some "i", some "sid", some "tz"⟩
      (some "X") (fun _ => none) "D" [] FsForest.nil none
      (RemoteOutcome.ok none)).2 (by decide) (by decide)⟩

/-- Claim C2: past validation, a `null` LLM result yields a 500 with the
generic generate-failure body and no call to the remote content API; an LLM
text that fails JSON parsing yields a 500 with the decode-failure body and
no call to the remote content API; the two messages are distinct. -/
theorem prompt_llm_failure_modes (req : PromptRequest)
    (llmResult : Option String) (jsonParse : String → Option ModelReply)
    (dflt : String) (scopes : List String) (tree : FsForest)
    (fsErr : Option String) (remote : RemoteOutcome)
    (hvalid : (strFalsy req.instruction || strFalsy req.scriptId ||
      strFalsy req.timezone) = false)
    (htok : strFalsy (getAuthorizationToken req) = false) :
    (llmResult = none →
      promptPost req llmResult jsonParse dflt scopes tree fsErr remote =
        { status := 500,
          body := PromptBody.errorBody "Failed to generate response from LLM",
          llmCalled := true, uploadCalled := false, sent := none }) ∧
    (∀ t, llmResult = some t → jsonParse t = none →
      promptPost req llmResult jsonParse dflt scopes tree fsErr remote =
        { status := 500,
          body := PromptBody.errorBody "Failed to decode response from LLM",
          llmCalled := true, uploadCalled := false, sent := none }) ∧
    ("Failed to generate response from LLM" : String) ≠
      "Failed to decode response from LLM" := by
  refine ⟨?_, ?_, by decide⟩
  · intro h
    subst h
    simp [promptPost, hvalid, htok]
  · intro t ht hp
    subst ht
    simp [promptPost, hvalid, htok, hp]

/-- Concrete instances of C2: both failure modes at a valid request. -/
theorem prompt_llm_failure_modes_witness :
    promptPost ⟨some "Bearer t", some "i", some "sid", some "tz"⟩ none
        (fun _ => none) "D" [] FsForest.nil none (RemoteOutcome.ok none) =
      { status := 500,
        body := PromptBody.errorBody "Failed to generate response from LLM",
        llmCalled := true, uploadCalled := false, sent := none } ∧
    promptPost ⟨some "Bearer t", some "i", some "sid", some "tz"⟩
        (some "not json") (fun _ => none) "D" [] FsForest.nil none
        (RemoteOutcome.ok none) =
      { status := 500,
        body := PromptBody.errorBody "Failed to decode response from LLM",
        llmCalled := true, uploadCalled := false, sent := none } :=
  ⟨(prompt_llm_failure_modes ⟨some "Bearer t", some "i", some "sid",
      some "tz"⟩ none (fun _ => none) "D" [] FsForest.nil none
      (RemoteOutcome.ok none) (by decide) (by decide)).1 rfl,
   ((prompt_llm_failure_modes ⟨some "Bearer t", some "i", some "sid",
      some "tz"⟩ (some "not json") (fun _ => none) "D" [] FsForest.nil none
      (RemoteOutcome.ok none) (by decide) (by decide)).2.1 "not json" rfl
      rfl)⟩

/-- Claim C3: when the upload stage fails, an error message containing
`ACCESS_TOKEN_SCOPE_INSUFFICIENT` is replaced by the fixed reinstall
message in the 500 response, and any other upload error message is passed
through verbatim. -/
theorem prompt_upload_error_messages (req : PromptRequest)
    (llmResult : Option String) (jsonParse : String → Option ModelReply)
    (dflt : String) (scopes : List String) (tree : FsForest)
    (fsErr : Option String) (remote : RemoteOutcome)
    (hvalid : (strFalsy req.instruction || strFalsy req.scriptId ||
      strFalsy req.timezone) = false)
    (htok : strFalsy (getAuthorizationToken req) = false)
    (t : String) (hllm : llmResult = some t) (r : ModelReply)
    (hparse : jsonParse t = some r) (m : String)
    (herr : (updateScriptContent (some (jsOrElse r.code "")) dflt scopes
      (req.timezone.getD "") tree fsErr remote).result.error = some m) :
    (promptPost req llmResult jsonParse dflt scopes tree fsErr
      remote).status = 500 ∧
    (promptPost req llmResult jsonParse dflt scopes tree fsErr remote).body =
      PromptBody.errorBody
        (if jsIncludes m "ACCESS_TOKEN_SCOPE_INSUFFICIENT" then
          reinstallMessage
        else m) ∧
    (jsIncludes m "ACCESS_TOKEN_SCOPE_INSUFFICIENT" = true →
      (promptPost req llmResult jsonParse dflt scopes tree fsErr
        remote).body = PromptBody.errorBody reinstallMessage) ∧
    (jsIncludes m "ACCESS_TOKEN_SCOPE_INSUFFICIENT" = false →
      (promptPost req llmResult jsonParse dflt scopes tree fsErr
        remote).body = PromptBody.errorBody m) := by
  subst hllm
  refine ⟨?_, ?_, ?_, ?_⟩
  · simp [promptPost, hvalid, htok, hparse, herr]
  · simp [promptPost, hvalid, htok, hparse, herr]
  · intro h
    simp [promptPost, hvalid, htok, hparse, herr, h]
  · intro h
    simp [promptPost, hvalid, htok, hparse, herr, h]

/-- Concrete instances of C3: a scope error is rewritten to the reinstall
message, another upload error is passed through. -/
theorem prompt_upload_error_messages_witness :
    (promptPost ⟨some "Bearer t", some "i", some "sid", some "tz"⟩
        (some "T") (fun _ => some ⟨some "E", some "C"⟩) "D" [] FsForest.nil
        none (RemoteOutcome.raise
          "ACCESS_TOKEN_SCOPE_INSUFFICIENT: denied")).body =
      PromptBody.errorBody reinstallMessage ∧
    (promptPost ⟨some "Bearer t", some "i", some "sid", some "tz"⟩
        (some "T") (fun _ => some ⟨some "E", some "C"⟩) "D" [] FsForest.nil
        none (RemoteOutcome.raise "quota exceeded")).body =
      PromptBody.errorBody "quota exceeded" :=
  ⟨(prompt_upload_error_messages ⟨some "Bearer t", some "i", some "sid",
      some "tz"⟩ (some "T") (fun _ => some ⟨some "E", some "C"⟩) "D" []
      FsForest.nil none
      (RemoteOutcome.raise "ACCESS_TOKEN_SCOPE_INSUFFICIENT: denied")
      (by decide) (by decide) "T" rfl ⟨some "E", some "C"⟩ rfl
      "ACCESS_TOKEN_SCOPE_INSUFFICIENT: denied" rfl).2.2.1 (by decide),
   (prompt_upload_error_messages ⟨some "Bearer t", some "i", some "sid",
      some "tz"⟩ (some "T") (fun _ => some ⟨some "E", some "C"⟩) "D" []
      FsForest.nil none (RemoteOutcome.raise "quota exceeded") (by decide)
      (by decide) "T" rfl ⟨some "E", some "C"⟩ rfl "quota exceeded"
      rfl).2.2.2 (by decide)⟩

/-- Claim C4: for a non-empty generated code string and a non-empty
timezone, the manifest handed to the remote update-content operation starts
with the `generated` server-code entry carrying exactly that code, followed
by the `appsscript` JSON entry serialising a manifest object whose
`timeZone` field is exactly the supplied timezone. -/
theorem updateScriptContent_manifest_heads (code tz : String)
    (dflt : String) (scopes : List String) (tree : FsForest)
    (remote : RemoteOutcome) (hcode : code ≠ "") (htz : tz ≠ "") :
    (updateScriptContent (some code) dflt scopes tz tree none remote).sent =
      some ({ name := "generated", type := "SERVER_JS", source := code }
        :: { name := "appsscript", type := "JSON",
             source := stringifyAppsscript (mkAppsscriptManifest tz scopes) }
        :: addFilesFromDirectory "" tree) ∧
    (mkAppsscriptManifest tz scopes).timeZone = tz := by
  constructor
  · cases remote with
    | ok de =>
      simp [updateScriptContent, resolveGeneratedCode, hcode,
        buildManifestFiles]
    | raise m =>
      simp [updateScriptContent, resolveGeneratedCode, hcode,
        buildManifestFiles]
  · rfl

/-- Concrete instance of C4. -/
theorem updateScriptContent_manifest_heads_witness :
    (updateScriptContent (some "function f() \x7b\x7d") "D" ["scopeA"]
        "America/Toronto" (FsForest.cons (FsEntry.file "util.js" "u")
          FsForest.nil) none (RemoteOutcome.ok none)).sent =
      some ({ name := "generated", type := "SERVER_JS",
              source := "function f() \x7b\x7d" }
        :: { name := "appsscript", type := "JSON",
             source := stringifyAppsscript
               (mkAppsscriptManifest "America/Toronto" ["scopeA"]) }
        :: addFilesFromDirectory ""
             (FsForest.cons (FsEntry.file "util.js" "u") FsForest.nil)) ∧
    (mkAppsscriptManifest "America/Toronto" ["scopeA"]).timeZone =
      "America/Toronto" :=
  updateScriptContent_manifest_heads "function f() \x7b\x7d"
    "America/Toronto" "D" ["scopeA"]
    (FsForest.cons (FsEntry.file "util.js" "u") FsForest.nil)
    (RemoteOutcome.ok none) (by decide) (by decide)

/-- Counterexample to claim C5 as stated: an LLM text that parses to a
JSON object with no `code` field is not treated as a parse failure; the
handler proceeds to the upload stage and answers 200. -/
theorem prompt_missing_code_counterexample :
    (promptPost ⟨some "Bearer t", some "i", some "sid", some "tz"⟩
        (some "\x7b\"explanation\":\"E\"\x7d")
        (fun t => if t = "\x7b\"explanation\":\"E\"\x7d" then
            some ⟨some "E", none⟩
          else none)
        "D" [] FsForest.nil none (RemoteOutcome.ok none)).status = 200 ∧
    (promptPost ⟨some "Bearer t", some "i", some "sid", some "tz"⟩
        (some "\x7b\"explanation\":\"E\"\x7d")
        (fun t => if t = "\x7b\"explanation\":\"E\"\x7d" then
            some ⟨some "E", none⟩
          else none)
        "D" [] FsForest.nil none (RemoteOutcome.ok none)).uploadCalled =
      true ∧
    (promptPost ⟨some "Bearer t", some "i", some "sid", some "tz"⟩
        (some "\x7b\"explanation\":\"E\"\x7d")
        (fun t => if t = "\x7b\"explanation\":\"E\"\x7d" then
            some ⟨some "E", none⟩
          else none)
        "D" [] FsForest.nil none (RemoteOutcome.ok none)).body ≠
      PromptBody.errorBody "Failed to decode response from LLM" := by
  refine ⟨by decide, by decide, by decide⟩

/-- Claim C5 as amended: only a text on which `JSON.parse` throws produces
the terminal decode-failure response; a text parsing to an object without a
`code` field (or with an empty one) instead reaches the upload stage, where
the empty code is replaced by the default placeholder script. -/
theorem prompt_decode_failure_only_parse (req : PromptRequest)
    (llmResult : Option String) (jsonParse : String → Option ModelReply)
    (dflt : String) (scopes : List String) (tree : FsForest)
    (fsErr : Option String) (remote : RemoteOutcome)
    (hvalid : (strFalsy req.instruction || strFalsy req.scriptId ||
      strFalsy req.timezone) = false)
    (htok : strFalsy (getAuthorizationToken req) = false)
    (t : String) (hllm : llmResult = some t) :
    (jsonParse t = none →
      promptPost req llmResult jsonParse dflt scopes tree fsErr remote =
        { status := 500,
          body := PromptBody.errorBody "Failed to decode response from LLM",
          llmCalled := true, uploadCalled := false, sent := none }) ∧
    (∀ r, jsonParse t = some r →
      (promptPost req llmResult jsonParse dflt scopes tree fsErr
        remote).uploadCalled = true ∧
      ((r.code = none ∨ r.code = some "") → fsErr = none →
        (promptPost req llmResult jsonParse dflt scopes tree fsErr
          remote).sent = some (buildManifestFiles dflt scopes
            (req.timezone.getD "") tree))) := by
  subst hllm
  constructor
  · intro hp
    simp [promptPost, hvalid, htok, hp]
  · intro r hp
    constructor
    · cases herr : (updateScriptContent (some (jsOrElse r.code "")) dflt
        scopes (req.timezone.getD "") tree fsErr remote).result.error with
      | none => simp [promptPost, hvalid, htok, hp, herr]
      | some m => simp [promptPost, hvalid, htok, hp, herr]
    · intro hcode hfs
      subst hfs
      have hres : jsOrElse r.code "" = "" := by
        rcases hcode with h | h <;> simp [jsOrElse, h]
      cases remote with
      | ok de =>
        cases de with
        | none =>
          simp [promptPost, hvalid, htok, hp, hres, updateScriptContent,
            resolveGeneratedCode]
        | some m =>
          simp [promptPost, hvalid, htok, hp, hres, updateScriptContent,
            resolveGeneratedCode]
      | raise m =>
        simp [promptPost, hvalid, htok, hp, hres, updateScriptContent,
          resolveGeneratedCode]

/-- Concrete instance of the amended C5: an object reply with no `code`
field reaches the upload stage and the placeholder is what gets sent. -/
theorem prompt_decode_failure_only_parse_witness :
    (promptPost ⟨some "Bearer t", some "i", some "sid", some "tz"⟩
        (some "T") (fun _ => some ⟨some "E", none⟩) "D" [] FsForest.nil none
        (RemoteOutcome.ok none)).uploadCalled = true ∧
    (promptPost ⟨some "Bearer t", some "i", some "sid", some "tz"⟩
        (some "T") (fun _ => some ⟨some "E", none⟩) "D" [] FsForest.nil none
        (RemoteOutcome.ok none)).sent =
      some (buildManifestFiles "D" [] "tz" FsForest.nil) := by
  have h := (prompt_decode_failure_only_parse
    ⟨some "Bearer t", some "i", some "sid", some "tz"⟩ (some "T")
    (fun _ => some ⟨some "E", none⟩) "D" [] FsForest.nil none
    (RemoteOutcome.ok none) (by decide) (by decide) "T" rfl).2
    ⟨some "E", none⟩ rfl
  exact ⟨h.1, h.2 (Or.inl rfl) rfl⟩

/-- Claim C6: with a readable template, `/setup` always answers 200 with
`Content-Type: application/javascript`: the unmodified template on a
successful upload, and the template with the failure message substituted
for the `failureMessage` placeholder on missing query parameters or an
upload error; only an unreadable template yields a 500 with the generic
JSON error body. -/
theorem setup_response_shape (tmpl : String) (q : SetupRequest)
    (dflt : String) (scopes : List String) (tree : FsForest)
    (fsErr : Option String) (remote : RemoteOutcome) :
    ((setupGet (some tmpl) q dflt scopes tree fsErr remote).status = 200 ∧
     (setupGet (some tmpl) q dflt scopes tree fsErr remote).contentType =
       some "application/javascript" ∧
     (setupGet (some tmpl) q dflt scopes tree fsErr remote).errorBody =
       none) ∧
    ((strFalsy q.authToken || strFalsy q.scriptId) = true →
      (setupGet (some tmpl) q dflt scopes tree fsErr remote).jsBody =
        some (substituteFailure tmpl
          "Error: authToken and scriptId must be provided")) ∧
    ((strFalsy q.authToken || strFalsy q.scriptId) = false →
      (updateScriptContent none dflt scopes "America/New_York" tree fsErr
        remote).result.error = none →
      (setupGet (some tmpl) q dflt scopes tree fsErr remote).jsBody =
        some tmpl) ∧
    (∀ m, (strFalsy q.authToken || strFalsy q.scriptId) = false →
      (updateScriptContent none dflt scopes "America/New_York" tree fsErr
        remote).result.error = some m →
      (setupGet (some tmpl) q dflt scopes tree fsErr remote).jsBody =
        some (setupCatch tmpl m)) ∧
    setupGet none q dflt scopes tree fsErr remote =
      { status := 500, contentType := none, jsBody := none,
        errorBody := some "Internal server error", uploadCalled := false } := by
  refine ⟨?_, ?_, ?_, ?_, by simp [setupGet]⟩
  · cases hq : (strFalsy q.authToken || strFalsy q.scriptId) with
    | true => simp [setupGet, hq]
    | false =>
      cases herr : (updateScriptContent none dflt scopes "America/New_York"
        tree fsErr remote).result.error with
      | none => simp [setupGet, hq, herr]
      | some m => simp [setupGet, hq, herr]
  · intro hq
    have h1 : jsIncludes "authToken and scriptId must be provided"
        "SERVICE_DISABLED" = false := by decide
    have h2 : ("Error: " ++ "authToken and scriptId must be provided" :
        String) = "Error: authToken and scriptId must be provided" := by
      decide
    simp [setupGet, hq, setupCatch, h1, h2]
  · intro hq hupd
    simp [setupGet, hq, hupd]
  · intro m hq hupd
    simp [setupGet, hq, hupd]

/-- Concrete instances of C6: success returns the template unmodified,
missing parameters substitute the failure message, an unreadable template
is the only 500. -/
theorem setup_response_shape_witness :
    (setupGet (some "T \x7b failureMessage = \x27\x27 \x7d")
        ⟨some "tok", some "sid"⟩ "D" [] FsForest.nil none
        (RemoteOutcome.ok none)).jsBody =
      some "T \x7b failureMessage = \x27\x27 \x7d" ∧
    (setupGet (some "T \x7b failureMessage = \x27\x27 \x7d")
        ⟨none, some "sid"⟩ "D" [] FsForest.nil none
        (RemoteOutcome.ok none)).jsBody =
      some (substituteFailure "T \x7b failureMessage = \x27\x27 \x7d"
        "Error: authToken and scriptId must be provided") ∧
    setupGet none ⟨some "tok", some "sid"⟩ "D" [] FsForest.nil none
        (RemoteOutcome.ok none) =
      { status := 500, contentType := none, jsBody := none,
        errorBody := some "Internal server error", uploadCalled := false } := by
  refine ⟨?_, ?_, ?_⟩
  · exact (setup_response_shape "T \x7b failureMessage = \x27\x27 \x7d"
      ⟨some "tok", some "sid"⟩ "D" [] FsForest.nil none
      (RemoteOutcome.ok none)).2.2.1 (by decide) rfl
  · exact (setup_response_shape "T \x7b failureMessage = \x27\x27 \x7d"
      ⟨none, some "sid"⟩ "D" [] FsForest.nil none
      (RemoteOutcome.ok none)).2.1 (by decide)
  · exact (setup_response_shape "T \x7b failureMessage = \x27\x27 \x7d"
      ⟨some "tok", some "sid"⟩ "D" [] FsForest.nil none
      (RemoteOutcome.ok none)).2.2.2.2

/-- Claim C7: a `/setup` upload failure whose message contains
`SERVICE_DISABLED` is answered 200 with the repository's template carrying
the enable-the-API guidance in place of the empty `failureMessage`, and the
raw upstream message does not appear in the body. -/
theorem setup_service_disabled_guidance (q : SetupRequest) (dflt : String)
    (scopes : List String) (tree : FsForest) (fsErr : Option String)
    (remote : RemoteOutcome) (m : String)
    (hq : (strFalsy q.authToken || strFalsy q.scriptId) = false)
    (herr : (updateScriptContent none dflt scopes "America/New_York" tree
      fsErr remote).result.error = some m)
    (hm : jsIncludes m "SERVICE_DISABLED" = true) :
    (setupGet (some setupTemplate) q dflt scopes tree fsErr
      remote).status = 200 ∧
    (setupGet (some setupTemplate) q dflt scopes tree fsErr remote).jsBody =
      some (substituteFailure setupTemplate serviceDisabledMessage) ∧
    strContains (substituteFailure setupTemplate serviceDisabledMessage)
      serviceDisabledMessage ∧
    ¬ strContains (substituteFailure setupTemplate serviceDisabledMessage)
      m := by
  have hbody : jsIncludes
      (substituteFailure setupTemplate serviceDisabledMessage)
      serviceDisabledMessage = true := by decide
  have hnsd : jsIncludes
      (substituteFailure setupTemplate serviceDisabledMessage)
      "SERVICE_DISABLED" = false := by decide
  refine ⟨?_, ?_, (jsIncludes_iff _ _).mp hbody, ?_⟩
  · simp [setupGet, hq, herr]
  · simp [setupGet, hq, herr, setupCatch, hm]
  · intro hcon
    have hsd : strContains
        (substituteFailure setupTemplate serviceDisabledMessage)
        "SERVICE_DISABLED" :=
      strContains_trans hcon ((jsIncludes_iff _ _).mp hm)
    have := (jsIncludes_iff _ _).mpr hsd
    rw [hnsd] at this
    exact absurd this (by decide)

/-- Concrete instance of C7: a service-disabled upload error at the real
template. -/
theorem setup_service_disabled_guidance_witness :
    (setupGet (some setupTemplate) ⟨some "tok", some "sid"⟩ "D" []
      FsForest.nil none (RemoteOutcome.raise
        "Err SERVICE_DISABLED: off")).status = 200 ∧
    (setupGet (some setupTemplate) ⟨some "tok", some "sid"⟩ "D" []
      FsForest.nil none (RemoteOutcome.raise
        "Err SERVICE_DISABLED: off")).jsBody =
      some (substituteFailure setupTemplate serviceDisabledMessage) ∧
    strContains (substituteFailure setupTemplate serviceDisabledMessage)
      serviceDisabledMessage ∧
    ¬ strContains (substituteFailure setupTemplate serviceDisabledMessage)
      "Err SERVICE_DISABLED: off" :=
  setup_service_disabled_guidance ⟨some "tok", some "sid"⟩ "D" []
    FsForest.nil none (RemoteOutcome.raise "Err SERVICE_DISABLED: off")
    "Err SERVICE_DISABLED: off" (by decide) rfl (by decide)

/-- Counterexample to claim C8 as stated: two gas-directory files whose
names differ only in extension are both stripped to the same manifest
entry name, so the produced manifest has a duplicate name. -/
theorem manifest_names_collision :
    ¬ (((updateScriptContent (some "CODE") "D" [] "UTC"
        (FsForest.cons (FsEntry.file "foo.js" "a")
          (FsForest.cons (FsEntry.file "foo.html" "b") FsForest.nil))
        none (RemoteOutcome.ok none)).sent.getD []).map
          (fun f => f.name)).Nodup := by decide

/-- Claim C8 as amended: the manifest entry names are pairwise distinct
provided the names contributed by the directory walk are themselves
pairwise distinct and none of them is `generated` or `appsscript`. -/
theorem manifest_names_nodup (g : Option String) (dflt : String)
    (scopes : List String) (tz : String) (tree : FsForest)
    (fsErr : Option String) (remote : RemoteOutcome)
    (fs : List ManifestFile)
    (hsent : (updateScriptContent g dflt scopes tz tree fsErr remote).sent =
      some fs)
    (hwalk : ((addFilesFromDirectory "" tree).map
      (fun f => f.name)).Nodup)
    (hgen : "generated" ∉ (addFilesFromDirectory "" tree).map
      (fun f => f.name))
    (happ : "appsscript" ∉ (addFilesFromDirectory "" tree).map
      (fun f => f.name)) :
    (fs.map (fun f => f.name)).Nodup := by
  have hne : ("generated" : String) ≠ "appsscript" := by decide
  cases fsErr with
  | some m => simp [updateScriptContent] at hsent
  | none =>
    cases remote with
    | ok de =>
      simp [updateScriptContent] at hsent
      subst hsent
      simp [buildManifestFiles, List.nodup_cons, hwalk, hgen, happ, hne]
    | raise m =>
      simp [updateScriptContent] at hsent
      subst hsent
      simp [buildManifestFiles, List.nodup_cons, hwalk, hgen, happ, hne]

/-- Concrete instance of the amended C8: distinct stripped names stay
distinct in the full manifest. -/
theorem manifest_names_nodup_witness :
    ((buildManifestFiles "C" ["s"] "UTC"
      (FsForest.cons (FsEntry.file "a.js" "x")
        (FsForest.cons (FsEntry.dir "sub"
          (FsForest.cons (FsEntry.file "a.js" "y") FsForest.nil))
          FsForest.nil))).map (fun f => f.name)).Nodup :=
  manifest_names_nodup (some "C") "D" ["s"] "UTC"
    (FsForest.cons (FsEntry.file "a.js" "x")
      (FsForest.cons (FsEntry.dir "sub"
        (FsForest.cons (FsEntry.file "a.js" "y") FsForest.nil))
        FsForest.nil))
    none (RemoteOutcome.ok none)
    (buildManifestFiles "C" ["s"] "UTC"
      (FsForest.cons (FsEntry.file "a.js" "x")
        (FsForest.cons (FsEntry.dir "sub"
          (FsForest.cons (FsEntry.file "a.js" "y") FsForest.nil))
          FsForest.nil)))
    (by decide) (by decide) (by decide) (by decide)

/-- Claim C9: a missing (`null`/`undefined`) or empty generated-code
argument makes `updateScriptContent` upload the default placeholder script
as the `generated` entry, and a model reply with a missing or empty `code`
field makes `/prompt` upload the placeholder and still answer 200. -/
theorem updateScriptContent_default_code (g : Option String)
    (hg : g = none ∨ g = some "") (dflt : String) (scopes : List String)
    (tz : String) (tree : FsForest) (fsErr : Option String)
    (remote : RemoteOutcome) :
    resolveGeneratedCode g dflt = dflt ∧
    (∀ fs, (updateScriptContent g dflt scopes tz tree fsErr remote).sent =
        some fs →
      fs.head? = some (ManifestFile.mk "generated" "SERVER_JS" dflt)) ∧
    (∀ (req : PromptRequest) (llmResult : Option String)
      (jsonParse : String → Option ModelReply) (t : String) (r : ModelReply),
      (strFalsy req.instruction || strFalsy req.scriptId ||
        strFalsy req.timezone) = false →
      strFalsy (getAuthorizationToken req) = false →
      llmResult = some t → jsonParse t = some r →
      (r.code = none ∨ r.code = some "") →
      (promptPost req llmResult jsonParse dflt scopes tree none
        (RemoteOutcome.ok none)).status = 200 ∧
      (promptPost req llmResult jsonParse dflt scopes tree none
        (RemoteOutcome.ok none)).sent =
        some (buildManifestFiles dflt scopes (req.timezone.getD "")
          tree)) := by
  have hres : resolveGeneratedCode g dflt = dflt := by
    rcases hg with h | h <;> simp [resolveGeneratedCode, h]
  refine ⟨hres, ?_, ?_⟩
  · intro fs hsent
    cases fsErr with
    | some m => simp [updateScriptContent] at hsent
    | none =>
      cases remote with
      | ok de =>
        simp [updateScriptContent, hres, buildManifestFiles] at hsent
        subst hsent
        rfl
      | raise m =>
        simp [updateScriptContent, hres, buildManifestFiles] at hsent
        subst hsent
        rfl
  · intro req llmResult jsonParse t r hvalid htok hllm hparse hcode
    subst hllm
    have hcode2 : jsOrElse r.code "" = "" := by
      rcases hcode with h | h <;> simp [jsOrElse, h]
    constructor <;>
      simp [promptPost, hvalid, htok, hparse, hcode2, updateScriptContent,
        resolveGeneratedCode]

/-- Concrete instance of C9: a reply whose `code` is the empty string still
yields 200 and a placeholder upload. -/
theorem updateScriptContent_default_code_witness :
    resolveGeneratedCode none "DEFAULT" = "DEFAULT" ∧
    (promptPost ⟨some "Bearer t", some "i", some "sid", some "tz"⟩
      (some "T") (fun _ => some ⟨some "E", some ""⟩) "DEFAULT" []
      FsForest.nil none (RemoteOutcome.ok none)).status = 200 ∧
    (promptPost ⟨some "Bearer t", some "i", some "sid", some "tz"⟩
      (some "T") (fun _ => some ⟨some "E", some ""⟩) "DEFAULT" []
      FsForest.nil none (RemoteOutcome.ok none)).sent =
      some (buildManifestFiles "DEFAULT" [] "tz" FsForest.nil) := by
  have h := updateScriptContent_default_code none (Or.inl rfl) "DEFAULT" []
    "tz" FsForest.nil none (RemoteOutcome.ok none)
  have h2 := h.2.2 ⟨some "Bearer t", some "i", some "sid", some "tz"⟩
    (some "T") (fun _ => some ⟨some "E", some ""⟩) "T" ⟨some "E", some ""⟩
    (by decide) (by decide) rfl rfl (Or.inr rfl)
  exact ⟨h.1, h2.1, h2.2⟩

/-- Counterexample to claim C10 as stated: the bare header `'Bearer '`
does start with the prefix `'Bearer '`, and token extraction yields the
empty string, not `null` — though the response is still 401. -/
theorem bearer_prefix_counterexample :
    getAuthorizationToken ⟨some "Bearer ", some "i", some "sid",
      some "tz"⟩ ≠ none ∧
    getAuthorizationToken ⟨some "Bearer ", some "i", some "sid",
      some "tz"⟩ = some "" ∧
    (promptPost ⟨some "Bearer ", some "i", some "sid", some "tz"⟩
      (some "T") (fun _ => none) "D" [] FsForest.nil none
      (RemoteOutcome.ok none)).status = 401 := by
  refine ⟨by decide, by decide, by decide⟩

/-- Claim C10 as amended: an `Authorization` header not starting with
`'Bearer '` makes extraction yield `null`; the bare `'Bearer '` header
makes it yield the empty string; in either case the extracted value is
falsy and a field-complete `/prompt` request is answered 401 with no
collaborator call. -/
theorem bearer_token_rejection (req : PromptRequest) (h : String)
    (llmResult : Option String) (jsonParse : String → Option ModelReply)
    (dflt : String) (scopes : List String) (tree : FsForest)
    (fsErr : Option String) (remote : RemoteOutcome)
    (hauth : req.authorization = some h)
    (hh : jsStartsWith h "Bearer " = false ∨ h = "Bearer ")
    (hfields : (strFalsy req.instruction || strFalsy req.scriptId ||
      strFalsy req.timezone) = false) :
    (jsStartsWith h "Bearer " = false →
      getAuthorizationToken req = none) ∧
    (h = "Bearer " → getAuthorizationToken req = some "") ∧
    strFalsy (getAuthorizationToken req) = true ∧
    promptPost req llmResult jsonParse dflt scopes tree fsErr remote =
      { status := 401, body := PromptBody.errorBody "Unauthorized",
        llmCalled := false, uploadCalled := false, sent := none } := by
  have hget : getAuthorizationToken req = none ∨
      getAuthorizationToken req = some "" := by
    rcases hh with h1 | h1
    · left
      simp [getAuthorizationToken, hauth, h1]
    · right
      subst h1
      simp only [getAuthorizationToken, hauth]
      decide
  have htok : strFalsy (getAuthorizationToken req) = true := by
    rcases hget with h2 | h2 <;> simp [strFalsy, h2]
  refine ⟨?_, ?_, htok, by simp [promptPost, hfields, htok]⟩
  · intro h1
    simp [getAuthorizationToken, hauth, h1]
  · intro h1
    subst h1
    simp only [getAuthorizationToken, hauth]
    decide

/-- Concrete instance of the amended C10: a `Basic` credential is present
but rejected with 401. -/
theorem bearer_token_rejection_witness :
    getAuthorizationToken ⟨some "Basic abc", some "i", some "sid",
      some "tz"⟩ = none ∧
    promptPost ⟨some "Basic abc", some "i", some "sid", some "tz"⟩
      (some "T") (fun _ => none) "D" [] FsForest.nil none
      (RemoteOutcome.ok none) =
      { status := 401, body := PromptBody.errorBody "Unauthorized",
        llmCalled := false, uploadCalled := false, sent := none } := by
  have h := bearer_token_rejection ⟨some "Basic abc", some "i", some "sid",
    some "tz"⟩ "Basic abc" (some "T") (fun _ => none) "D" [] FsForest.nil
    none (RemoteOutcome.ok none) rfl (Or.inl (by decide)) (by decide)
  exact ⟨h.1 (by decide), h.2.2.2⟩

end GSheetAgent
